import Mathlib

/-!
Verification of the SQL Playground sandbox provisioning and query execution
safety engine.

The repository snapshot contains the React frontend (App.jsx, the editor,
the auth context, the axios service layers) and the project documentation;
the FastAPI backend sources (statement classifier, provisioner, execution
routes, history store) are referenced by the documentation but are not part
of the snapshot.  Frontend behaviour is embedded directly from the JSX/JS
sources; backend behaviour is modelled from the specification, and each such
definition carries a doc comment saying so and naming the missing module.
-/

namespace SQLPlayground

/-! ## Statement classifier -/

/-- Modelled from the spec: the backend statement classifier
(backend/app, not in the snapshot), section 4.2.  The fixed destructive
keyword table. -/
def destructiveKeywords : List String :=
  ["DROP", "TRUNCATE", "DELETE", "ALTER", "UPDATE"]

/-- Modelled from the spec: keywords that are write-classified for cache
invalidation purposes (section 4.2): the destructive table plus CREATE,
GRANT, REVOKE, and INSERT. -/
def writeKeywords : List String :=
  destructiveKeywords ++ ["CREATE", "GRANT", "REVOKE", "INSERT"]

/-- Consume the rest of a line comment started by two dashes, returning the
characters after the newline. -/
def skipLineComment : List Char → List Char
  | [] => []
  | c :: rest => if c = '\n' then rest else skipLineComment rest

/-- Consume the rest of a block comment, returning the characters after the
closing marker. -/
def skipBlockComment : List Char → List Char
  | [] => []
  | '*' :: '/' :: rest => rest
  | _ :: rest => skipBlockComment rest

/-- Skip leading whitespace and leading comments.  Fuel-indexed so that the
function is total by construction; fuel equal to the input length always
suffices because every step strictly shortens the character list. -/
def skipLeading : Nat → List Char → List Char
  | 0, cs => cs
  | _ + 1, [] => []
  | fuel + 1, c :: rest =>
    if c.isWhitespace then skipLeading fuel rest
    else if c = '-' then
      match rest with
      | '-' :: rest2 => skipLeading fuel (skipLineComment rest2)
      | _ => c :: rest
    else if c = '/' then
      match rest with
      | '*' :: rest2 => skipLeading fuel (skipBlockComment rest2)
      | _ => c :: rest
    else c :: rest

/-- The leading alphabetic word, uppercased. -/
def takeLeadingWord : List Char → List Char
  | [] => []
  | c :: rest => if c.isAlpha then c.toUpper :: takeLeadingWord rest else []

/-- Modelled from the spec: the first keyword of a statement, found after
leading comments and whitespace and compared case-insensitively
(section 4.2). -/
def leadingKeyword (sql : String) : String :=
  String.mk (takeLeadingWord (skipLeading sql.length sql.toList))

/-- Keywords after which the next identifier names an affected object. -/
def objectKeywords : List String := ["FROM", "INTO", "TABLE", "DATABASE"]

def isIdentChar (c : Char) : Bool := c.isAlphanum || c = '_' || c = '.'

/-- Modelled from the spec: best-effort scan for identifiers following FROM,
INTO, TABLE, DATABASE, or bracketed tokens (section 4.2).  Fuel-indexed: it
always returns a list, possibly empty, and never fails. -/
def scanObjects : Nat → Bool → List Char → List String
  | 0, _, _ => []
  | fuel + 1, expectObj, cs =>
    match cs with
    | [] => []
    | c :: rest =>
      if c = '[' then
        let name := rest.takeWhile (fun d => d ≠ ']')
        let rest2 := (rest.dropWhile (fun d => d ≠ ']')).drop 1
        String.mk name :: scanObjects fuel false rest2
      else if isIdentChar c then
        let word := cs.takeWhile isIdentChar
        let rest2 := cs.dropWhile isIdentChar
        let w := String.mk (word.map Char.toUpper)
        if expectObj then String.mk word :: scanObjects fuel false rest2
        else scanObjects fuel (objectKeywords.contains w) rest2
      else scanObjects fuel expectObj rest

def extractAffectedObjects (sql : String) : List String :=
  scanObjects sql.length false sql.toList

structure ClassificationResult where
  operation : String
  destructive : Bool
  affectedObjects : List String
deriving Repr, DecidableEq

/-- Modelled from the spec: classify of the backend statement classifier
(section 4.2).  Total by construction: object extraction is best effort and
an empty affected-object list is a valid result. -/
def classify (sql : String) : ClassificationResult :=
  let kw := leadingKeyword sql
  { operation := kw
    destructive := destructiveKeywords.contains kw
    affectedObjects := extractAffectedObjects sql }

/-! ## Sessions, server state and the execution router -/

inductive Role where
  | admin
  | sandbox
deriving Repr, DecidableEq

/-- A session as the engine sees it: role plus, for sandbox users, the name
of the one database recorded in the sandbox binding. -/
structure Session where
  userId : String
  role : Role
  sandboxDb : String
deriving Repr, DecidableEq

structure CacheEntry where
  database : String
  statement : String
deriving Repr, DecidableEq

/-- A query-history record: statement text, success flag and a logical
timestamp (records are appended with strictly increasing timestamps). -/
structure HistoryRecord where
  query : String
  success : Bool
  timestamp : Nat
deriving Repr, DecidableEq

/-- Modelled from the spec: the bounded capacity of the per-session history
ring buffer (section 4.6; the concrete bound is not observable in the
snapshot). -/
def HISTORY_CAPACITY : Nat := 100

/-- Modelled from the spec: recordHistory appends to the bounded ring
buffer, evicting the oldest entries on overflow (section 4.6). -/
def recordHistory (hist : List HistoryRecord) (r : HistoryRecord) :
    List HistoryRecord :=
  let h := hist ++ [r]
  if HISTORY_CAPACITY < h.length then h.drop (h.length - HISTORY_CAPACITY) else h

/-- Modelled from the spec: the history endpoint returns the last limit
records of the ring buffer.  The wire order is the stored, chronological
order (oldest first): this is forced by the client in QueryHistory.jsx,
which reverses the received array before rendering the most-recent-first
history panel. -/
def getHistory (hist : List HistoryRecord) (limit : Nat) : List HistoryRecord :=
  hist.drop (hist.length - limit)

/-- QueryHistory.jsx renders the received history list reversed, so the
newest record is shown first. -/
def displayedHistory (received : List HistoryRecord) : List HistoryRecord :=
  received.reverse

/-- Server-side observable state: the result cache, the history ring
buffer, the append-only log of statements actually run against the
database, and the logical clock used to stamp history records. -/
structure ServerState where
  cache : List CacheEntry
  history : List HistoryRecord
  executedLog : List String
  clock : Nat
deriving Repr, DecidableEq

inductive ExecOutcome where
  | ok (rows : Nat)
  | confirmationRequired (operation : String) (affected : List String)
  | forbidden
deriving Repr, DecidableEq

/-- Abstract row count of a successful execution: row payloads are outside
this model. -/
def EXECUTE_OK_ROWS : Nat := 0

/-- Modelled from the spec: the backend execution router (backend/app
routes, not in the snapshot), section 4.4.  Steps: authorize the sandbox
isolation invariant, classify, gate destructive statements behind
confirmation without touching any state, invalidate the cache for writes
before executing, execute, and record history. -/
def execute (s : Session) (targetDb sql : String) (confirmDestructive : Bool)
    (st : ServerState) : ExecOutcome × ServerState :=
  if s.role = Role.sandbox ∧ targetDb ≠ s.sandboxDb then
    (ExecOutcome.forbidden, st)
  else
    let c := classify sql
    if c.destructive && !confirmDestructive then
      (ExecOutcome.confirmationRequired c.operation c.affectedObjects, st)
    else
      let cache2 :=
        if writeKeywords.contains c.operation then
          st.cache.filter (fun e => e.database != targetDb)
        else st.cache
      let record : HistoryRecord :=
        { query := sql, success := true, timestamp := st.clock }
      (ExecOutcome.ok EXECUTE_OK_ROWS,
        { cache := cache2
          executedLog := st.executedLog ++ [sql]
          history := recordHistory st.history record
          clock := st.clock + 1 })

/-! ## The client: App.jsx execution handlers -/

/-- The fields of an execute response as the client reads them
(result.success, result.requires_confirmation, result.query,
result.operation, result.affected_objects, result.row_count,
result.error). -/
structure ApiResponse where
  success : Bool
  requiresConfirmation : Bool
  query : String
  operation : String
  affectedObjects : List String
  rowCount : Nat
  error : Option String
deriving Repr, DecidableEq

/-- The confirmData object built in App.jsx before opening the dialog. -/
structure ConfirmData where
  query : String
  operation : String
  affected : List String
deriving Repr, DecidableEq

/-- The React state of SQLPlayground in App.jsx that the execution handlers
touch: query, result, isExecuting, showConfirm, confirmData, historyKey. -/
structure ClientState where
  query : String
  result : Option ApiResponse
  isExecuting : Bool
  showConfirm : Bool
  confirmData : Option ConfirmData
  historyKey : Nat
deriving Repr, DecidableEq

/-- A JavaScript value passed as the queryToExecute argument: either a
string or some non-string value. -/
inductive JSVal where
  | str (s : String)
  | nonString
deriving Repr, DecidableEq

/-- The JavaScript test !s.trim(): true exactly when the string trims to
the empty string, that is when every character is whitespace.  Phrased via
dropWhile so that concrete instances evaluate. -/
def jsStrBlank (s : String) : Bool :=
  (s.toList.dropWhile Char.isWhitespace).isEmpty

/-- The guard condition of handleExecuteQuery: typeof queryText is not
string, or queryText.trim() is falsy (empty). -/
def jsBlank : JSVal → Bool
  | JSVal.nonString => true
  | JSVal.str s => jsStrBlank s

/-- The result object App.jsx stores when the guard fires: success false
with the fixed message; the remaining fields are absent in the JS object
and neutral here. -/
def emptyQueryResult : ApiResponse :=
  { success := false, requiresConfirmation := false, query := "", operation := ""
    affectedObjects := [], rowCount := 0
    error := some "Please enter a query to execute" }

/-- How the wire response for a statement maps onto the fields the client
reads. -/
def toApiResponse (sql : String) : ExecOutcome → ApiResponse
  | ExecOutcome.ok rows =>
    { success := true, requiresConfirmation := false, query := sql
      operation := "", affectedObjects := [], rowCount := rows, error := none }
  | ExecOutcome.confirmationRequired op objs =>
    { success := false, requiresConfirmation := true, query := sql
      operation := op, affectedObjects := objs, rowCount := 0, error := none }
  | ExecOutcome.forbidden =>
    { success := false, requiresConfirmation := false, query := sql
      operation := "", affectedObjects := [], rowCount := 0
      error := some "Access denied" }

/-- Lines 126-153 of App.jsx: what handleExecuteQuery does with the awaited
response.  If requires_confirmation and not confirmDestructive it only
opens the dialog and clears the executing flag; otherwise it records the
result, bumps historyKey and closes the dialog. -/
def processResponse (confirmDestructive : Bool) (resp : ApiResponse)
    (st : ClientState) : ClientState :=
  if resp.requiresConfirmation && !confirmDestructive then
    { st with
      confirmData := some { query := resp.query, operation := resp.operation
                            affected := resp.affectedObjects }
      showConfirm := true
      isExecuting := false }
  else
    { st with
      result := some resp
      historyKey := st.historyKey + 1
      showConfirm := false
      confirmData := none
      isExecuting := false }

/-- Client state, server state and the cumulative count of execute API
calls the client has issued. -/
structure WorldState where
  client : ClientState
  server : ServerState
  apiCalls : Nat
deriving Repr, DecidableEq

/-- Embedding of handleExecuteQuery from App.jsx (lines 106-154) together
with the api call it awaits; apiService.executeQuery is the spec-modelled
execute above.  Returns the new world; apiCalls counts executeQuery
calls.  The nonString fallback arm after the guard is dead code: jsBlank is
true for every non-string. -/
def handleExecuteQuery (s : Session) (targetDb : String)
    (confirmDestructive : Bool) (queryToExecute : Option JSVal)
    (w : WorldState) : WorldState :=
  let queryText : JSVal :=
    match queryToExecute with
    | some v => v
    | none => JSVal.str w.client.query
  if jsBlank queryText then
    { w with client := { w.client with result := some emptyQueryResult } }
  else
    match queryText with
    | JSVal.nonString => w
    | JSVal.str q =>
      let running := { w.client with isExecuting := true }
      let res := execute s targetDb q confirmDestructive w.server
      { client := processResponse confirmDestructive (toApiResponse q res.fst) running
        server := res.snd
        apiCalls := w.apiCalls + 1 }

/-- Embedding of handleConfirmExecution from App.jsx (lines 156-159):
close the dialog, then run handleExecuteQuery with confirmDestructive true
and no query override. -/
def handleConfirmExecution (s : Session) (targetDb : String)
    (w : WorldState) : WorldState :=
  handleExecuteQuery s targetDb true none
    { w with client := { w.client with showConfirm := false } }

/-- Embedding of the useEffect in App.jsx (lines 72-78) that pins a sandbox
session to its own database: for sandbox users with a database_name the
current database is set to it. -/
def setCurrentDatabaseEffect (isSandbox : Bool) (userDb : Option String)
    (currentDb : Option String) : Option String :=
  if isSandbox then
    match userDb with
    | some d => some d
    | none => currentDb
  else currentDb

/-! ## Provisioner -/

/-- The statement kinds issued while provisioning a sandbox. -/
inductive ProvisionStmt where
  | createLogin (login : String)
  | createDatabase (db : String)
  | alterDatabaseMaxSize (db : String)
  | useDatabase (db : String)
  | createUser (login : String)
  | alterRole (role login : String)
deriving Repr, DecidableEq

/-- Modelled from the spec: backend/app/services/provisioner.py is not in
the snapshot.  The statement sequence follows spec section 4.3 and the
repaired provisioner documented in the fix guide: each inner list is the
batch passed to one cursor.execute call, and the repaired code issues USE
as its own call instead of prefixing it to the following DDL. -/
def provisionBatches (login db : String) : List (List ProvisionStmt) :=
  [ [ProvisionStmt.createLogin login]
  , [ProvisionStmt.createDatabase db]
  , [ProvisionStmt.alterDatabaseMaxSize db]
  , [ProvisionStmt.useDatabase db]
  , [ProvisionStmt.createUser login]
  , [ProvisionStmt.alterRole "db_datareader" login]
  , [ProvisionStmt.alterRole "db_datawriter" login]
  , [ProvisionStmt.alterRole "db_ddladmin" login] ]

/-! ## Error propagation: the axios service layers -/

/-- The shape of an error response body, as the frontend error handlers
discriminate it: either a bare string, or an object with optional detail,
error, and message fields.  A detail field is either a string or an array
of Pydantic validation items, modelled as pairs of field name and
message. -/
inductive DetailVal where
  | detailStr (s : String)
  | detailArr (items : List (String × String))
deriving Repr, DecidableEq

inductive RespBody where
  | strBody (s : String)
  | objBody (detail : Option DetailVal) (error : Option String)
      (message : Option String)
deriving Repr, DecidableEq

structure HttpResponse where
  status : Nat
  data : RespBody
deriving Repr, DecidableEq

/-- An axios error: response present when the server answered, hasRequest
when the request went out but nothing came back, plus the error code and
message. -/
structure AxiosError where
  response : Option HttpResponse
  hasRequest : Bool
  code : Option String
  message : String
deriving Repr, DecidableEq

/-- What the interceptor passes to Promise.reject. -/
inductive RejectedValue where
  | serverData (d : RespBody)
  | errorMsg (msg : String)
deriving Repr, DecidableEq

/-- Embedding of the response interceptor error branch of services/api.js:
a server response is passed through as its data; a request with no
response becomes the fixed generic message; anything else surfaces the
error message. -/
def apiRejectedValue (e : AxiosError) : RejectedValue :=
  match e.response with
  | some r => RejectedValue.serverData r.data
  | none =>
    if e.hasRequest then
      RejectedValue.errorMsg "Network error. Please check your connection."
    else RejectedValue.errorMsg e.message

/-- JavaScript truthiness of an optional detail value: absent and the empty
string are falsy, arrays are always truthy. -/
def jsTruthyDetail : Option DetailVal → Bool
  | none => false
  | some (DetailVal.detailStr s) => !s.isEmpty
  | some (DetailVal.detailArr _) => true

/-- JavaScript truthiness of an optional string field. -/
def jsTruthyStr : Option String → Bool
  | none => false
  | some s => !s.isEmpty

def isDetailArr : Option DetailVal → Bool
  | some (DetailVal.detailArr _) => true
  | _ => false

def detailItems : Option DetailVal → List (String × String)
  | some (DetailVal.detailArr items) => items
  | _ => []

/-- Rendering of JSON.stringify on a non-string detail value, abbreviated
to the fields this model keeps. -/
def stringifyDetail : DetailVal → String
  | DetailVal.detailStr s => "\x22" ++ s ++ "\x22"
  | DetailVal.detailArr items =>
    "[" ++ String.intercalate ", " (items.map (fun p => p.fst ++ ": " ++ p.snd)) ++ "]"

/-- Embedding of extractErrorMessage from AuthContext.jsx (lines 152-199):
no-response errors are split by code ECONNREFUSED, code ERR_NETWORK, then a
nonempty message, then a final generic text; responses are split by string
body, 422 validation arrays, the detail field, the error field, and the
message field with a status-code fallback. -/
def extractErrorMessage (e : AxiosError) : String :=
  match e.response with
  | none =>
    if e.code = some "ECONNREFUSED" then
      "Backend server is not running. Please start the backend server at http://localhost:8000"
    else if e.code = some "ERR_NETWORK" then
      "Cannot reach the backend server. Check if it\x27s running on http://localhost:8000"
    else if !e.message.isEmpty then
      "Connection error: " ++ e.message ++ ". Make sure the backend server is running."
    else
      "Network error. Please check that the backend server is running at http://localhost:8000"
  | some r =>
    match r.data with
    | RespBody.strBody s => s
    | RespBody.objBody detail err msg =>
      if r.status = 422 && isDetailArr detail then
        String.intercalate ", "
          ((detailItems detail).map (fun p => p.fst ++ ": " ++ p.snd))
      else if jsTruthyDetail detail then
        match detail with
        | some (DetailVal.detailStr s) => s
        | some d => stringifyDetail d
        | none => ""
      else if jsTruthyStr err then err.getD ""
      else if jsTruthyStr msg then msg.getD ""
      else "Server error (HTTP " ++ toString r.status ++ ")"

/-! ## Editor execution concurrency -/

/-- Events that can start or finish an editor-initiated execution: the
Ctrl+Enter Monaco command, the Run button, and completion of the awaited
call (the finally block of handleExecuteQuery). -/
inductive EditorEvent where
  | ctrlEnter (editorValue : String)
  | runClick (editorValue : String)
  | complete
deriving Repr, DecidableEq

/-- The executing flag of App.jsx plus the number of editor-initiated
execute requests currently in flight. -/
structure EditorUIState where
  isExecuting : Bool
  inFlight : Nat
deriving Repr, DecidableEq

def initialEditorUI : EditorUIState := { isExecuting := false, inFlight := 0 }

/-- Embedding of the two editor entry points of components/Editor.jsx and
the in-flight bookkeeping of handleExecuteQuery in App.jsx.  The
Ctrl+Enter command returns at once when isExecutingRef.current is set or
the editor text is blank; the Run button handler is guarded by
!isExecuting, and a blank query makes handleExecuteQuery return before
setting the flag.  Otherwise handleExecuteQuery sets isExecuting and
issues one request; completion clears the flag in the finally block. -/
def editorStep (st : EditorUIState) : EditorEvent → EditorUIState
  | EditorEvent.ctrlEnter v =>
    if st.isExecuting then st
    else if jsStrBlank v then st
    else { isExecuting := true, inFlight := st.inFlight + 1 }
  | EditorEvent.runClick v =>
    if st.isExecuting then st
    else if jsStrBlank v then st
    else { isExecuting := true, inFlight := st.inFlight + 1 }
  | EditorEvent.complete =>
    { isExecuting := false, inFlight := st.inFlight - 1 }

/-! ## Auth context logout -/

/-- The client auth state logout touches: the stored token, the in-memory
user, the session expiry, the current route, plus the untouched loading
flag. -/
structure AuthState where
  token : Option String
  user : Option String
  sessionExpiry : Option String
  route : String
  loading : Bool
deriving Repr, DecidableEq

/-- Embedding of logout from AuthContext.jsx (lines 117-131): the backend
call is awaited inside try/catch, a failure only being logged, and the
local cleanup and navigation run unconditionally afterwards. -/
def logout (apiOutcome : Except String Unit) (st : AuthState) : AuthState :=
  let afterApi :=
    match apiOutcome with
    | Except.ok _ => st
    | Except.error _ => st
  { afterApi with
    token := none, user := none, sessionExpiry := none, route := "/login" }

/-! ## Concrete instances used by counterexamples and witnesses -/

def demoAdmin : Session :=
  { userId := "admin", role := Role.admin, sandboxDb := "" }

def demoSandbox : Session :=
  { userId := "alice", role := Role.sandbox, sandboxDb := "SandboxDB_alice" }

def initServer : ServerState :=
  { cache := [], history := [], executedLog := [], clock := 0 }

def demoClient : ClientState :=
  { query := "DROP TABLE Foo", result := none, isExecuting := false
    showConfirm := true, confirmData := none, historyKey := 0 }

def demoWorld : WorldState :=
  { client := demoClient, server := initServer, apiCalls := 0 }

/-- A received history list is most-recent-first when timestamps are
non-increasing along it. -/
def mostRecentFirst (l : List HistoryRecord) : Prop :=
  List.Chain' (fun a b => b.timestamp ≤ a.timestamp) l

/-- A history list is chronological when timestamps are non-decreasing
along it, the order in which the ring buffer stores records. -/
def chronological (l : List HistoryRecord) : Prop :=
  List.Chain' (fun a b => a.timestamp ≤ b.timestamp) l

def c6recordA : HistoryRecord :=
  { query := "SELECT 1", success := true, timestamp := 0 }

def c6recordB : HistoryRecord :=
  { query := "SELECT 2", success := true, timestamp := 1 }

/-- Two records recorded in order: c6recordA first, then c6recordB. -/
def c6history : List HistoryRecord :=
  recordHistory (recordHistory [] c6recordA) c6recordB

/-- An axios timeout failure: request sent, no response, code
ECONNABORTED. -/
def timeoutError : AxiosError :=
  { response := none, hasRequest := true, code := some "ECONNABORTED"
    message := "timeout of 30000ms exceeded" }

/-- An axios unreachable-server failure: request sent, no response, code
ERR_NETWORK. -/
def unreachableError : AxiosError :=
  { response := none, hasRequest := true, code := some "ERR_NETWORK"
    message := "Network Error" }

/-- A connection-refused failure as the auth layer sees it. -/
def refusedError : AxiosError :=
  { response := none, hasRequest := true, code := some "ECONNREFUSED"
    message := "connect ECONNREFUSED 127.0.0.1:8000" }

/-- A failure that carries a server response. -/
def responseError : AxiosError :=
  { response := some { status := 500, data := RespBody.strBody "boom" }
    hasRequest := true, code := none
    message := "Request failed with status code 500" }

/-- The invariant tying the executing flag of App.jsx to the number of
editor-initiated requests in flight. -/
def editorInv (st : EditorUIState) : Prop :=
  st.inFlight = (if st.isExecuting then 1 else 0)

/-! ## Helper lemmas -/

theorem chain_drop {α : Type} {R : α → α → Prop} (n : Nat) (l : List α)
    (h : List.Chain' R l) : List.Chain' R (l.drop n) := by
  induction n with
  | zero => simpa using h
  | succ k ih => rw [← List.tail_drop]; exact ih.tail

theorem editorStep_inv (st : EditorUIState) (e : EditorEvent)
    (h : editorInv st) : editorInv (editorStep st e) := by
  rcases st with ⟨b, n⟩
  cases e with
  | ctrlEnter v =>
    by_cases hb : b = true <;> by_cases hv : jsStrBlank v = true <;>
      simp [editorStep, editorInv, hb, hv] at h ⊢ <;> omega
  | runClick v =>
    by_cases hb : b = true <;> by_cases hv : jsStrBlank v = true <;>
      simp [editorStep, editorInv, hb, hv] at h ⊢ <;> omega
  | complete =>
    by_cases hb : b = true <;> simp [editorStep, editorInv, hb] at h ⊢ <;> omega

/-! ## Claim theorems -/

/-- Claim C1: for every statement the server classifies as destructive,
executing with confirmDestructive false yields a ConfirmationRequired
response with unchanged server state (history, cache and executed log
untouched), and the client handler records no result, does not bump
historyKey, opens the dialog, clears the executing flag, and issues
exactly the one API call that produced the response - the confirmation
branch is pure with respect to result and history state. -/
theorem confirmation_branch_pure (s : Session) (targetDb sql : String)
    (w : WorldState)
    (hauth : ¬(s.role = Role.sandbox ∧ targetDb ≠ s.sandboxDb))
    (hdes : (classify sql).destructive = true)
    (hnb : jsStrBlank sql = false) :
    (handleExecuteQuery s targetDb false (some (JSVal.str sql)) w).server = w.server
    ∧ (handleExecuteQuery s targetDb false (some (JSVal.str sql)) w).client.result
        = w.client.result
    ∧ (handleExecuteQuery s targetDb false (some (JSVal.str sql)) w).client.historyKey
        = w.client.historyKey
    ∧ (handleExecuteQuery s targetDb false (some (JSVal.str sql)) w).client.showConfirm
        = true
    ∧ (handleExecuteQuery s targetDb false (some (JSVal.str sql)) w).client.isExecuting
        = false
    ∧ (handleExecuteQuery s targetDb false (some (JSVal.str sql)) w).apiCalls
        = w.apiCalls + 1 := by
  simp [handleExecuteQuery, jsBlank, hnb, execute, hauth, hdes, processResponse,
    toApiResponse]

/-- Witness for C1 at a concrete destructive statement and admin session. -/
theorem confirmation_branch_pure_witness :
    (¬(demoAdmin.role = Role.sandbox ∧ "master" ≠ demoAdmin.sandboxDb))
    ∧ (classify "DROP TABLE Foo").destructive = true
    ∧ jsStrBlank "DROP TABLE Foo" = false
    ∧ (handleExecuteQuery demoAdmin "master" false
        (some (JSVal.str "DROP TABLE Foo")) demoWorld).server = demoWorld.server :=
  ⟨by decide, by decide, by decide,
    (confirmation_branch_pure demoAdmin "master" "DROP TABLE Foo" demoWorld
      (by decide) (by decide) (by decide)).1⟩

/-- Claim C2: for every sandbox session and every target database different
from its own sandbox database, execute returns Forbidden with the server
state unchanged (no server call), and the client effect pins a sandbox
session to exactly the database recorded in its binding. -/
theorem sandbox_isolation_forbidden (s : Session) (targetDb sql : String)
    (confirm : Bool) (st : ServerState) (cur : Option String)
    (hrole : s.role = Role.sandbox) (hne : targetDb ≠ s.sandboxDb) :
    execute s targetDb sql confirm st = (ExecOutcome.forbidden, st)
    ∧ setCurrentDatabaseEffect true (some s.sandboxDb) cur = some s.sandboxDb := by
  constructor
  · simp [execute, hrole, hne]
  · simp [setCurrentDatabaseEffect]

/-- Witness for C2: a sandbox session targeting master is refused. -/
theorem sandbox_isolation_forbidden_witness :
    demoSandbox.role = Role.sandbox
    ∧ ("master" : String) ≠ demoSandbox.sandboxDb
    ∧ execute demoSandbox "master" "SELECT 1" false initServer
        = (ExecOutcome.forbidden, initServer) :=
  ⟨by decide, by decide,
    (sandbox_isolation_forbidden demoSandbox "master" "SELECT 1" false initServer
      none (by decide) (by decide)).1⟩

/-- Claim C3: confirming after a ConfirmationRequired response executes the
statement exactly once: handleConfirmExecution issues a single API call
with confirmDestructive true, the executed log grows by exactly that one
statement, the dialog stays closed and the confirmation branch is not
re-entered (confirmData cleared, result recorded). -/
theorem confirm_executes_exactly_once (s : Session) (targetDb : String)
    (w : WorldState)
    (hauth : ¬(s.role = Role.sandbox ∧ targetDb ≠ s.sandboxDb))
    (hdes : (classify w.client.query).destructive = true)
    (hnb : jsStrBlank w.client.query = false) :
    (handleConfirmExecution s targetDb w).apiCalls = w.apiCalls + 1
    ∧ (handleConfirmExecution s targetDb w).server.executedLog
        = w.server.executedLog ++ [w.client.query]
    ∧ (handleConfirmExecution s targetDb w).client.showConfirm = false
    ∧ (handleConfirmExecution s targetDb w).client.confirmData = none
    ∧ (handleConfirmExecution s targetDb w).client.result
        = some (toApiResponse w.client.query (ExecOutcome.ok EXECUTE_OK_ROWS)) := by
  simp [handleConfirmExecution, handleExecuteQuery, jsBlank, hnb, execute, hauth,
    processResponse, toApiResponse]

/-- Witness for C3: confirming the pending DROP executes it once. -/
theorem confirm_executes_exactly_once_witness :
    (¬(demoAdmin.role = Role.sandbox ∧ "master" ≠ demoAdmin.sandboxDb))
    ∧ (classify demoWorld.client.query).destructive = true
    ∧ jsStrBlank demoWorld.client.query = false
    ∧ (handleConfirmExecution demoAdmin "master" demoWorld).server.executedLog
        = demoWorld.server.executedLog ++ [demoWorld.client.query] :=
  ⟨by decide, by decide, by decide,
    (confirm_executes_exactly_once demoAdmin "master" demoWorld
      (by decide) (by decide) (by decide)).2.1⟩

/-- Claim C4: classify marks a statement destructive exactly when its
leading keyword, found after leading comments and whitespace, is in the
fixed table DROP, TRUNCATE, DELETE, ALTER, UPDATE; and the destructive
verdict depends only on the leading keyword, never on whether affected
object extraction produced anything, so an empty affected-object list is a
valid classification result. -/
theorem classify_destructive_iff_keyword (sql other : String)
    (hkw : leadingKeyword sql = leadingKeyword other) :
    ((classify sql).destructive = true ↔ leadingKeyword sql ∈ destructiveKeywords)
    ∧ (classify sql).destructive = (classify other).destructive := by
  constructor
  · simp [classify]
  · simp [classify, hkw]

/-- Witness for C4: two texts with the same leading keyword, here a DROP
with and without extractable objects. -/
theorem classify_destructive_iff_keyword_witness :
    leadingKeyword "DROP TABLE Users" = leadingKeyword "drop Accounts"
    ∧ ((classify "DROP TABLE Users").destructive = true
        ↔ leadingKeyword "DROP TABLE Users" ∈ destructiveKeywords) :=
  ⟨by decide,
    (classify_destructive_iff_keyword "DROP TABLE Users" "drop Accounts"
      (by decide)).1⟩

/-- Claim C5: during provisioning the switch of context to the new
database is issued as its own statement: every batch passed to the driver
holds exactly one statement, the USE statement is the batch at index 3,
the CREATE USER follows in the next, separate batch, and no batch that
contains the USE statement contains anything else. -/
theorem provision_use_separate_statement (login db : String) :
    (∀ b ∈ provisionBatches login db, b.length = 1)
    ∧ (provisionBatches login db)[3]? = some [ProvisionStmt.useDatabase db]
    ∧ (provisionBatches login db)[4]? = some [ProvisionStmt.createUser login]
    ∧ (∀ b ∈ provisionBatches login db,
        ProvisionStmt.useDatabase db ∈ b → b = [ProvisionStmt.useDatabase db]) := by
  refine ⟨?_, rfl, rfl, ?_⟩
  · intro b hb
    simp [provisionBatches] at hb
    rcases hb with rfl|rfl|rfl|rfl|rfl|rfl|rfl|rfl <;> rfl
  · intro b hb hmem
    simp [provisionBatches] at hb
    rcases hb with rfl|rfl|rfl|rfl|rfl|rfl|rfl|rfl <;> simp_all

/-- Witness for C5 at the generated names of the reference scenario. -/
theorem provision_use_separate_statement_witness :
    (provisionBatches "sandbox_alice" "SandboxDB_alice")[3]?
      = some [ProvisionStmt.useDatabase "SandboxDB_alice"] :=
  (provision_use_separate_statement "sandbox_alice" "SandboxDB_alice").2.1

/-- Claim C6, counterexample: the history operation does not return records
most-recent-first.  Recording two records in order and reading them back
returns them oldest first: the first returned record carries the smaller
timestamp. -/
theorem history_wire_order_counterexample :
    getHistory c6history 50 = [c6recordA, c6recordB]
    ∧ c6recordA.timestamp < c6recordB.timestamp
    ∧ ¬ mostRecentFirst (getHistory c6history 50) := by
  refine ⟨by decide, by decide, ?_⟩
  intro h
  simp [c6history, recordHistory, getHistory, HISTORY_CAPACITY, mostRecentFirst,
    c6recordA, c6recordB] at h

/-- Claim C6, amended: for every session history and limit, the history
operation returns the last limit records in chronological, oldest-first
order, and the client-side reversal in QueryHistory.jsx makes the
displayed history most-recent-first. -/
theorem history_display_most_recent_first (hist : List HistoryRecord)
    (limit : Nat) (hchron : chronological hist) :
    chronological (getHistory hist limit)
    ∧ mostRecentFirst (displayedHistory (getHistory hist limit)) := by
  have hdrop : chronological (getHistory hist limit) := chain_drop _ _ hchron
  refine ⟨hdrop, ?_⟩
  unfold mostRecentFirst displayedHistory
  rw [List.chain'_reverse]
  exact hdrop

/-- Witness for the amended C6 on the two-record history. -/
theorem history_display_most_recent_first_witness :
    chronological c6history
    ∧ mostRecentFirst (displayedHistory (getHistory c6history 50)) := by
  have hh : c6history = [c6recordA, c6recordB] := by decide
  have hc : chronological c6history := by
    rw [hh]
    unfold chronological
    simp [List.chain'_cons, c6recordA, c6recordB]
  exact ⟨hc, (history_display_most_recent_first c6history 50 hc).2⟩

/-- Claim C7, counterexample: the api.js response interceptor collapses two
distinct connectivity failure kinds - a timeout (ECONNABORTED) and an
unreachable server (ERR_NETWORK) - into the identical generic message. -/
theorem network_error_collapse_counterexample :
    timeoutError.code ≠ unreachableError.code
    ∧ apiRejectedValue timeoutError = apiRejectedValue unreachableError
    ∧ apiRejectedValue timeoutError
        = RejectedValue.errorMsg "Network error. Please check your connection." := by
  decide

/-- Claim C7, amended: failures that carry a server response are surfaced
with the server payload unchanged, and the auth flow distinguishes the
connection-refused and unreachable-server kinds; but every no-response
failure on the general API path is collapsed into the one generic network
message. -/
theorem error_kind_surfacing_amended (e e1 e2 : AxiosError) (r : HttpResponse)
    (h : e.response = some r)
    (h1 : e1.response = none) (h1c : e1.code = some "ECONNREFUSED")
    (h2 : e2.response = none) (h2c : e2.code = some "ERR_NETWORK") :
    apiRejectedValue e = RejectedValue.serverData r.data
    ∧ extractErrorMessage e1 ≠ extractErrorMessage e2
    ∧ (∀ e3 : AxiosError, e3.response = none → e3.hasRequest = true →
        apiRejectedValue e3
          = RejectedValue.errorMsg "Network error. Please check your connection.") := by
  refine ⟨by simp [apiRejectedValue, h], ?_, ?_⟩
  · simp [extractErrorMessage, h1, h1c, h2, h2c]
  · intro e3 h3 h3r
    simp [apiRejectedValue, h3, h3r]

/-- Witness for the amended C7 on concrete errors of each kind. -/
theorem error_kind_surfacing_amended_witness :
    responseError.response = some { status := 500, data := RespBody.strBody "boom" }
    ∧ refusedError.response = none
    ∧ refusedError.code = some "ECONNREFUSED"
    ∧ unreachableError.response = none
    ∧ unreachableError.code = some "ERR_NETWORK"
    ∧ extractErrorMessage refusedError ≠ extractErrorMessage unreachableError :=
  ⟨rfl, rfl, rfl, rfl, rfl,
    (error_kind_surfacing_amended responseError refusedError unreachableError
      { status := 500, data := RespBody.strBody "boom" }
      rfl rfl rfl rfl rfl).2.1⟩

/-- Claim C8: for every input that is not a string or is blank after
trimming, the handler stores the fixed failure result, performs no API
call, leaves the executing flag exactly as it was, and leaves server state
and historyKey untouched. -/
theorem empty_query_guard_no_side_effects (s : Session) (targetDb : String)
    (confirm : Bool) (q : JSVal) (w : WorldState)
    (hblank : jsBlank q = true) :
    (handleExecuteQuery s targetDb confirm (some q) w).client.result
        = some emptyQueryResult
    ∧ (handleExecuteQuery s targetDb confirm (some q) w).apiCalls = w.apiCalls
    ∧ (handleExecuteQuery s targetDb confirm (some q) w).client.isExecuting
        = w.client.isExecuting
    ∧ (handleExecuteQuery s targetDb confirm (some q) w).server = w.server
    ∧ (handleExecuteQuery s targetDb confirm (some q) w).client.historyKey
        = w.client.historyKey := by
  simp [handleExecuteQuery, hblank]

/-- Witness for C8 on a whitespace-only query. -/
theorem empty_query_guard_no_side_effects_witness :
    jsBlank (JSVal.str "   ") = true
    ∧ (handleExecuteQuery demoAdmin "master" false (some (JSVal.str "   "))
        demoWorld).client.result = some emptyQueryResult :=
  ⟨by decide,
    (empty_query_guard_no_side_effects demoAdmin "master" false
      (JSVal.str "   ") demoWorld (by decide)).1⟩

/-- Claim C9: along every sequence of editor events starting from the idle
state, at most one editor-initiated execute request is in flight: the
Ctrl+Enter command and the Run button are both no-ops while the executing
flag is set. -/
theorem editor_at_most_one_inflight (events : List EditorEvent) :
    (events.foldl editorStep initialEditorUI).inFlight ≤ 1 := by
  have key : ∀ (evs : List EditorEvent) (st : EditorUIState), editorInv st →
      editorInv (evs.foldl editorStep st) := by
    intro evs
    induction evs with
    | nil => intro st h; exact h
    | cons e rest ih => intro st h; exact ih _ (editorStep_inv st e h)
  have h := key events initialEditorUI (by simp [editorInv, initialEditorUI])
  unfold editorInv at h
  split_ifs at h <;> omega

/-- Claim C10: whatever the backend logout call returns, logout removes the
stored token, clears the user and session expiry, navigates to the login
page, and touches nothing else. -/
theorem logout_always_clears_auth_state (r : Except String Unit)
    (st : AuthState) :
    (logout r st).token = none
    ∧ (logout r st).user = none
    ∧ (logout r st).sessionExpiry = none
    ∧ (logout r st).route = "/login"
    ∧ (logout r st).loading = st.loading := by
  cases r <;> simp [logout]

end SQLPlayground
